import Mathlib

/-!
Verification development for the omg-order-and-payment-service repository.

The TypeScript source is shallowly embedded: each handler becomes a pure
state-passing function over an explicit database state, external collaborators
(the Razorpay gateway, the booking-availability service, the store's own
failure modes that the source catches explicitly) are driven by an oracle
record, and JavaScript truthiness / nullish semantics are modelled on
`Option String` values.  Cryptographic hashing (node's `crypto.createHmac`)
is an external library call; it is modelled as an abstract function carried
by the environment record.
-/

namespace OmgPay

/-- JavaScript truthiness of a nullable string value (`undefined`/`null`/`""`
are falsy, every other string is truthy). -/
def truthyS : Option String → Bool
  | none => false
  | some s => s != ""

/-- JavaScript `a || b` for nullable strings: `b` when `a` is falsy. -/
def jsOr (a b : Option String) : Option String :=
  if truthyS a then a else b

/-- JavaScript `a || null` for nullable strings (turns `""` into `null`). -/
def jsOrNull (a : Option String) : Option String :=
  if truthyS a then a else none

/-- `s.includes('T') ? s.split('T')[0] : s` — strip a time suffix from an
ISO-ish date string.  The first segment of the split is exactly the prefix
before the first `T`, and when no `T` occurs it is the whole string, so one
`takeWhile` covers both branches. -/
def stripT (s : String) : String :=
  ⟨s.toList.takeWhile fun c => c != 'T'⟩

/-- JavaScript `String.prototype.trim`: drop leading and trailing
whitespace. -/
def jsTrim (s : String) : String :=
  ⟨((s.toList.dropWhile Char.isWhitespace).reverse.dropWhile Char.isWhitespace).reverse⟩

/-- JavaScript `String.prototype.toLowerCase` on ASCII identifiers. -/
def lowerString (s : String) : String :=
  ⟨s.toList.map Char.toLower⟩

/-! ## Identifier sanitizer (src/utils/uuidValidator.ts) -/

/-- One character of the `/^[0-9a-f]{8}-.../i` pattern: hex digit, either case. -/
def isUuidHexDigit (c : Char) : Bool :=
  c.isDigit || "abcdefABCDEF".toList.contains c

/-- Variant nibble `[89ab]` under the `/i` flag. -/
def isUuidVariantChar (c : Char) : Bool :=
  "89abAB".toList.contains c

/-- What the character at position `i` of a 36-character candidate must be:
dashes at 8/13/18/23, the version nibble `4` at 14, a variant nibble at 19,
hex everywhere else. -/
def uuidCharOk (i : Nat) (c : Char) : Bool :=
  if i == 8 || i == 13 || i == 18 || i == 23 then c == '-'
  else if i == 14 then c == '4'
  else if i == 19 then isUuidVariantChar c
  else isUuidHexDigit c

/-- The regex test `/^[0-9a-f]{8}-[0-9a-f]{4}-4[0-9a-f]{3}-[89ab][0-9a-f]{3}-[0-9a-f]{12}$/i`. -/
def uuidRegexTest (s : String) : Bool :=
  let cs := s.toList
  cs.length == 36 && (List.range 36).all fun i => uuidCharOk i (cs.getD i ' ')

/-- `isValidUUID(value)`: falsy or non-string input is rejected, otherwise
the v4 regex decides.  Non-string runtime input is modelled as `none`. -/
def isValidUUID (value : Option String) : Bool :=
  match value with
  | none => false
  | some s => if s == "" then false else uuidRegexTest s

/-- The regex `/^\d+$/` used to call out pure-numeric identifiers. -/
def isNumericString (s : String) : Bool :=
  s != "" && s.toList.all Char.isDigit

/-- `sanitizeUUID(value)`: falsy or non-string input gives `null`; otherwise
the value is trimmed and, when it passes the v4 test, returned lower-cased.
The source distinguishes numeric / empty / other invalid shapes only in its
log messages; all of them return `null`. -/
def sanitizeUUID (value : Option String) : Option String :=
  match value with
  | none => none
  | some v =>
    if v == "" then none
    else
      let trimmed := jsTrim v
      if isValidUUID (some trimmed) then some (lowerString trimmed)
      else none

/-! ## Signature verifier (utils, razorpay client module) -/

/-- Process environment and configuration shared by the handlers.  `hmac` is
the abstract keyed HMAC-SHA256 hex digest (key, message); `keySecret` is the
resolved Razorpay key secret (`none` when credential resolution fails);
`webhookSecret` is `RAZORPAY_WEBHOOK_SECRET`; `appcontrolUrl` is
`APPCONTROL_SERVICE_URL`. -/
structure Env where
  hmac : String → String → String
  keySecret : Option String
  webhookSecret : Option String
  appcontrolUrl : Option String

/-- `verifyPaymentSignature(orderId, paymentId, signature)`: recompute the
HMAC over `orderId|paymentId` under the key secret and compare.  A missing
secret makes credential resolution throw, re-thrown to the caller; this is
the `.error` case. -/
def verifyPaymentSignature (env : Env) (orderId paymentId signature : String) :
    Except Unit Bool :=
  if truthyS env.keySecret then
    .ok (env.hmac (env.keySecret.getD "") (orderId ++ "|" ++ paymentId) == signature)
  else
    .error ()

/-- `verifyWebhookSignature(payload, signature)`: with no configured webhook
secret the source logs a warning and returns `true` (accept-by-default);
otherwise compare against the HMAC of the raw payload. -/
def verifyWebhookSignature (env : Env) (payload signature : String) : Bool :=
  if truthyS env.webhookSecret then
    env.hmac (env.webhookSecret.getD "") payload == signature
  else
    true

/-! ## Booking-availability response values and the duplicate matcher
(payments.handler.ts lines 516-588)

The bookings returned by the availability collaborator are duck-typed: their
`preferredDate` / `preferredTimeSlot` fields may be a string, an array, or a
per-date map.  They are modelled by a small dynamic-value type.  Operations
that would raise a `TypeError` at runtime (calling `.includes`/`.split` on a
plain object, `.split` on an array) are modelled as `Except` errors; the
surrounding try/catch in the source swallows them. -/

/-- Dynamic (JSON-ish) runtime value for the duck-typed booking fields. -/
inductive JVal where
  | null
  | str (s : String)
  | arr (elems : List JVal)
  | obj (fields : List (String × JVal))
deriving Repr

/-- JavaScript strict equality of a dynamic value against a string. -/
def jStrEq (v : JVal) (s : String) : Bool :=
  match v with
  | .str t => t == s
  | _ => false

/-- JavaScript truthiness of a dynamic value (objects and arrays are always
truthy, `""` and `null`/`undefined` are falsy). -/
def jTruthy : JVal → Bool
  | .null => false
  | .str s => s != ""
  | .arr _ => true
  | .obj _ => true

/-- Object property lookup `fields[k]`; `none` models `undefined`. -/
def jLookup (fields : List (String × JVal)) (k : String) : Option JVal :=
  (fields.find? fun p => p.1 == k).map (·.2)

/-- One booking row as returned by the availability collaborator. -/
structure AvailBooking where
  preferredDate : JVal
  preferredTimeSlot : JVal
deriving Repr

/-- `existingDates[i]?.includes('T') ? existingDates[i].split('T')[0] : existingDates[i]`.
A plain object has no `includes` (TypeError); an array that does contain the
string `'T'` reaches `.split`, which arrays lack (TypeError). -/
def normDateElem : JVal → Except Unit JVal
  | .null => .ok .null
  | .str s => .ok (.str (stripT s))
  | .arr xs => if xs.any (fun x => jStrEq x "T") then .error () else .ok (.arr xs)
  | .obj _ => .error ()

/-- The parallel-arrays branch of the matcher: walk `existingDates`, normalize
each entry, and report a hit when both the date and the same-index slot agree
with the target. -/
def arraysDup (normDate slot : String) : List JVal → List JVal → Except Unit Bool
  | [], _ => .ok false
  | d :: ds, slots =>
    match normDateElem d with
    | .error e => .error e
    | .ok nd =>
      if jStrEq nd normDate && jStrEq (slots.headD .null) slot then .ok true
      else arraysDup normDate slot ds (slots.drop 1)

/-- The predicate passed to `existingBookings.find(...)`: three tolerated
representations — per-date map, parallel date/slot arrays, and single scalar
date/slot — each compared against the normalized target `(normDate, slot)`. -/
def isDuplicateOfBooking (normDate slot : String) (b : AvailBooking) : Except Unit Bool :=
  match b.preferredTimeSlot with
  | .obj fields =>
    match jLookup fields normDate with
    | none => .ok false
    | some ts =>
      if jTruthy ts then
        .ok ((match ts with | .arr xs => xs | v => [v]).any fun x => jStrEq x slot)
      else .ok false
  | pts =>
    match b.preferredDate, pts with
    | .arr dates, .arr slots => arraysDup normDate slot dates slots
    | pd, ptsv =>
      .ok (jStrEq
            (if jTruthy pd then
              match pd with
              | .str s => .str (stripT s)
              | v => v
            else .null) normDate
          && jStrEq ptsv slot)

/-- `existingBookings.find(...)`: first thrown TypeError aborts the search,
otherwise report whether any booking matches. -/
def findDuplicateBooking (normDate slot : String) : List AvailBooking → Except Unit Bool
  | [] => .ok false
  | b :: rest =>
    match isDuplicateOfBooking normDate slot b with
    | .error e => .error e
    | .ok true => .ok true
    | .ok false => findDuplicateBooking normDate slot rest

/-! ## Data model (src/db/models, payments.types.ts)

Monetary fields arrive as numbers and are persisted via `String(...)`; the
embedding carries their string image directly, so the source's
`x !== undefined ? String(x) : undefined` is the identity on these options,
and a `x ? String(x) : null` guard is JS truthiness (`truthyS`). -/

/-- `PaymentStatus` of src/db/models/PaymentOrder.ts. -/
inductive PaymentStatus where
  | created
  | authorized
  | paid
  | captured
  | failed
  | refunded
deriving DecidableEq, Repr

/-- One line item as supplied by the verify payload (`OrderItemInput`). -/
structure OrderItemInput where
  itemType : Option String := none
  itemId : Option String := none
  itemName : Option String := none
  itemDescription : Option String := none
  itemImageUrl : Option String := none
  productId : Option String := none
  pujaId : Option String := none
  prasadId : Option String := none
  dharshanId : Option String := none
  quantity : Option Nat := none
  unitPrice : Option String := none
  totalPrice : Option String := none
  itemDetails : Option String := none
  status : Option String := none
deriving DecidableEq, Repr

/-- `RudrakshaBookingData` of payments.types.ts (the fields the core reads:
the rest only travels to the external booking-creation POST). -/
structure RudrakshaBookingData where
  userId : String
  participatingInEvent : Bool := false
  preferredDate : Option String := none
  preferredTimeSlot : Option String := none
deriving DecidableEq, Repr

/-- The staged pending-order snapshot kept in `PaymentOrder.metadata.orderData`. -/
structure OrderData where
  userId : Option String := none
  orderType : Option String := none
  templeId : Option String := none
  addressId : Option String := none
  status : Option String := none
  scheduledDate : Option String := none
  scheduledTimestamp : Option String := none
  fulfillmentType : Option String := none
  subtotal : Option String := none
  discountAmount : Option String := none
  convenienceFee : Option String := none
  taxAmount : Option String := none
  totalAmount : Option String := none
  currency : Option String := none
  contactName : Option String := none
  contactPhone : Option String := none
  contactEmail : Option String := none
  shippingAddress : Option String := none
  deliveryType : Option String := none
  orderItems : Option (List OrderItemInput) := none
  rudrakshaBookingData : Option RudrakshaBookingData := none
deriving DecidableEq, Repr

/-- The `PaymentOrder.metadata` bag.  The source spreads the previous bag on
every write (`{ ...metadata, field: v }`), which a record update models
exactly: named fields change, the rest is preserved.  Timestamps are the
ISO strings the source stores; gateway entity echoes are kept as entity ids. -/
structure Metadata where
  appOrderId : Option String := none
  orderData : Option OrderData := none
  razorpayPaymentId : Option String := none
  verifiedAt : Option String := none
  authorizedAt : Option String := none
  capturedAt : Option String := none
  paidAt : Option String := none
  failedAt : Option String := none
  paymentEntityEcho : Option String := none
  orderEntityEcho : Option String := none
deriving DecidableEq, Repr

/-- A `PaymentOrders` row. -/
structure PaymentOrderRow where
  userId : Option String := none
  razorpayOrderId : String
  razorpayPaymentId : Option String := none
  razorpaySignature : Option String := none
  status : PaymentStatus := .created
  amount : Option Nat := none
  currency : Option String := none
  receipt : Option String := none
  customerEmail : Option String := none
  customerPhone : Option String := none
  metadata : Metadata := {}
  capturedAt : Option Nat := none
  failureReason : Option String := none
deriving DecidableEq, Repr

/-- An `Orders` row, restricted to the columns the materializer writes. -/
structure OrderRow where
  id : String
  userId : String
  orderType : String
  status : String
  paymentStatus : String
  paymentMethod : String
  paidAt : Option String := none
  templeId : Option String := none
  addressId : Option String := none
  scheduledDate : Option String := none
  scheduledTimestamp : Option String := none
  fulfillmentType : Option String := none
  subtotal : Option String := none
  discountAmount : Option String := none
  convenienceFee : Option String := none
  taxAmount : Option String := none
  totalAmount : Option String := none
  currency : Option String := none
  contactName : Option String := none
  contactPhone : Option String := none
  contactEmail : Option String := none
  shippingAddress : Option String := none
  deliveryType : Option String := none
  paymentId : Option String := none
deriving DecidableEq, Repr

/-- An `OrderItems` row. -/
structure OrderItemRow where
  orderId : String
  itemType : String
  itemId : Option String := none
  itemName : Option String := none
  itemDescription : Option String := none
  itemImageUrl : Option String := none
  productId : Option String := none
  pujaId : Option String := none
  prasadId : Option String := none
  dharshanId : Option String := none
  quantity : Option Nat := none
  unitPrice : Option String := none
  totalPrice : Option String := none
  itemDetails : Option String := none
  status : Option String := none
deriving DecidableEq, Repr

/-- An `OrderStatusHistories` row. -/
structure OrderStatusHistoryRow where
  orderId : String
  status : String
  previousStatus : Option String := none
  notes : Option String := none
  location : Option String := none
deriving DecidableEq, Repr

/-- The relational store restricted to one PaymentOrder and its downstream
rows: the only shared mutable state of the service. -/
structure DB where
  paymentOrder : PaymentOrderRow
  orders : List OrderRow := []
  orderItems : List OrderItemRow := []
  statusHistories : List OrderStatusHistoryRow := []
deriving DecidableEq, Repr

/-- Outcome of the GET to the booking-availability collaborator: the request
may throw, or respond with a `success` flag and an optional bookings array.
A truthy non-array `bookings` value behaves like an empty array (the source
replaces it by `[]`), so it is folded into `some []`. -/
inductive AvailOutcome where
  | err
  | resp (success : Bool) (bookings : Option (List AvailBooking))
deriving Repr

/-- Oracle for one materializer invocation: resolves every external outcome
the source handles explicitly — the availability GET, `Order.create` failure
and the failure of the separate single-row pointer update that follows it
(both covered by the catch at line 643, so a pointer-update failure leaves
the created Order committed), the `OrderItem`/`OrderStatusHistory` batch
failures, the booking-creation POST failure — plus the id the store assigns
to a freshly created Order and the current wall-clock ISO string. -/
structure MatOracle where
  avail : AvailOutcome := .resp false none
  freshOrderId : String
  orderCreateFails : Bool := false
  pointerUpdateFails : Bool := false
  itemsCreateFails : Bool := false
  historyCreateFails : Bool := false
  bookingCreateFails : Bool := false
  now : String := "now"
deriving Repr

/-! ## Order Materializer — createOrderFromPaymentOrderData
(payments.handler.ts lines 477-951) -/

/-- The per-item sanitization map applied to `orderData.orderItems` before
anything else (lines 494-503): each catalog reference is run through
`sanitizeUUID` when truthy, else set to `null`. -/
def sanitizeItemRefs (item : OrderItemInput) : OrderItemInput :=
  { item with
    itemId := if truthyS item.itemId then sanitizeUUID item.itemId else none
    productId := if truthyS item.productId then sanitizeUUID item.productId else none
    pujaId := if truthyS item.pujaId then sanitizeUUID item.pujaId else none
    prasadId := if truthyS item.prasadId then sanitizeUUID item.prasadId else none
    dharshanId := if truthyS item.dharshanId then sanitizeUUID item.dharshanId else none }

/-- `if (orderData.orderItems && Array.isArray(orderData.orderItems))` then
map `sanitizeItemRefs` over them. -/
def sanitizeOrderItems (od : OrderData) : OrderData :=
  match od.orderItems with
  | some items => { od with orderItems := some (items.map sanitizeItemRefs) }
  | none => od

/-- Body of the duplicate-check `try` (lines 519-582): when the appcontrol
URL is configured, query the availability collaborator; on a successful
response with a bookings array, normalize the requested date and search for
a matching booking.  Errors (request failure, matcher TypeErrors) propagate
to the enclosing catch. -/
def duplicateCheckBody (env : Env) (o : MatOracle) (bd : RudrakshaBookingData) :
    Except Unit Bool :=
  if truthyS env.appcontrolUrl then
    match o.avail with
    | .err => .error ()
    | .resp success bookings =>
      if success && bookings.isSome then
        let normalizedPreferredDate := stripT (bd.preferredDate.getD "")
        if normalizedPreferredDate != "" && truthyS bd.preferredTimeSlot then
          findDuplicateBooking normalizedPreferredDate (bd.preferredTimeSlot.getD "")
            (bookings.getD [])
        else .ok false
      else .ok false
  else .ok false

/-- The event-only domain duplicate guard (lines 516-588).  `true` means the
source hits `return null` for a detected duplicate; a failure of the check
itself is caught, reported, and creation proceeds (`false`). -/
def matGuardNull (env : Env) (o : MatOracle) (od : OrderData) : Bool :=
  if od.orderType == some "event" && od.rudrakshaBookingData.isSome then
    match od.rudrakshaBookingData with
    | some bd =>
      if truthyS bd.preferredDate && truthyS bd.preferredTimeSlot then
        match duplicateCheckBody env o bd with
        | .ok b => b
        | .error _ => false
      else false
    | none => false
  else false

/-- The `orderDataToCreate` record of lines 597-624 plus the id the store
assigns.  `status` uses nullish coalescing (`?? 'pending'`), `currency` and
`contactEmail` use `||` fallbacks to the PaymentOrder row, and `paymentId`
is set from `razorpayOrderId` when truthy. -/
def newOrderRow (o : MatOracle) (po : PaymentOrderRow) (sanitizedUserId : String)
    (od : OrderData) : OrderRow :=
  { id := o.freshOrderId
    userId := sanitizedUserId
    orderType := od.orderType.getD ""
    status := od.status.getD "pending"
    paymentStatus := "paid"
    paymentMethod := "razorpay"
    paidAt := some o.now
    templeId := if truthyS od.templeId then sanitizeUUID od.templeId else none
    addressId := if truthyS od.addressId then sanitizeUUID od.addressId else none
    scheduledDate := od.scheduledDate
    scheduledTimestamp := od.scheduledTimestamp
    fulfillmentType := od.fulfillmentType
    subtotal := od.subtotal
    discountAmount := od.discountAmount
    convenienceFee := od.convenienceFee
    taxAmount := od.taxAmount
    totalAmount := od.totalAmount
    currency := jsOr od.currency po.currency
    contactName := od.contactName
    contactPhone := od.contactPhone
    contactEmail := jsOr od.contactEmail po.customerEmail
    shippingAddress := od.shippingAddress
    deliveryType := od.deliveryType
    paymentId := if po.razorpayOrderId != "" then some po.razorpayOrderId else none }

/-- One `OrderItem.create` payload (lines 674-690). -/
def orderItemRowOf (orderId : String) (item : OrderItemInput) : OrderItemRow :=
  { orderId := orderId
    itemType := item.itemType.getD ""
    itemId := if truthyS item.itemId then sanitizeUUID item.itemId else none
    itemName := jsOrNull item.itemName
    itemDescription := jsOrNull item.itemDescription
    itemImageUrl := jsOrNull item.itemImageUrl
    productId := if truthyS item.productId then sanitizeUUID item.productId else none
    pujaId := if truthyS item.pujaId then sanitizeUUID item.pujaId else none
    prasadId := if truthyS item.prasadId then sanitizeUUID item.prasadId else none
    dharshanId := if truthyS item.dharshanId then sanitizeUUID item.dharshanId else none
    quantity := match item.quantity with
      | some n => if n == 0 then none else some n
      | none => none
    unitPrice := if truthyS item.unitPrice then item.unitPrice else none
    totalPrice := if truthyS item.totalPrice then item.totalPrice else none
    itemDetails := jsOrNull item.itemDetails
    status := jsOrNull item.status }

/-- Step 6 of the materializer (lines 660-698) as the list of `OrderItems`
rows it appends: guarded by an "items already exist for this order" check;
the per-item `Promise.all` creates a row for every item carrying an
`itemType` even when a sibling item throws for a missing one (that throw,
like a store failure, is caught at line 693).  `existing` is the table as
read at line 664 — order creation never touches it, so reading it before or
after the create is equivalent. -/
def itemsRowsToAdd (o : MatOracle) (existing : List OrderItemRow) (od : OrderData)
    (orderId : String) : List OrderItemRow :=
  match od.orderItems with
  | some items =>
    if items.length > 0 then
      if (existing.filter fun r => r.orderId == orderId).length == 0 then
        if o.itemsCreateFails then []
        else (items.filter fun i => truthyS i.itemType).map (orderItemRowOf orderId)
      else []
    else []
  | none => []

/-- Step 7 (lines 700-720) as the appended `OrderStatusHistories` rows:
create the initial history row unless one already exists; a creation failure
is caught at line 715. -/
def historyRowsToAdd (o : MatOracle) (existing : List OrderStatusHistoryRow)
    (od : OrderData) (orderId : String) : List OrderStatusHistoryRow :=
  match existing.find? fun r => r.orderId == orderId with
  | some _ => []
  | none =>
    if o.historyCreateFails then []
    else
      [{ orderId := orderId
         status := od.status.getD "pending"
         previousStatus := none
         notes := some "Order created via Razorpay webhook"
         location := none }]

/-- Step 8 (lines 722-940): the best-effort booking-creation POST.  It only
talks to the external collaborator — it writes nothing to this service's
store — so the embedding records just whether the attempt (payload
validation or the POST itself) raised; the caller's catch swallows it. -/
def bookingAttempt (env : Env) (o : MatOracle) (od : OrderData) : Except Unit Unit :=
  if od.orderType == some "event" && od.rudrakshaBookingData.isSome then
    if truthyS env.appcontrolUrl then
      if o.bookingCreateFails then .error () else .ok ()
    else .ok ()
  else .ok ()

/-- How the materializer body finishes: a normal return, or an exception
escaping to the outer catch of line 946. -/
inductive MatOutcome where
  | ret (r : Option OrderRow)
  | exn
deriving DecidableEq, Repr

/-- The creation path of the materializer, entered once the idempotency
check has fallen through: duplicate guard, `Order.create` (line 626), then
the separate single-row pointer write (`{ ...metadata, appOrderId }`, line
635), then the non-fatal item / history / booking phases.  The create and
the pointer update are two independent store writes under one catch (line
643): when `Order.create` itself fails nothing is written and `null` is
returned, but when the pointer update fails after a successful create, the
Order row stays committed, the pointer stays unset and `null` is returned.
The discarded `bookingAttempt` value is the swallowed outcome of the final
best-effort step; it runs last in the source but touches no local table, so
its position is immaterial. -/
def matCreate (env : Env) (o : MatOracle) (db : DB) (od : OrderData)
    (sanitizedUserId : String) : DB × MatOutcome :=
  if matGuardNull env o od then (db, .ret none)
  else if o.orderCreateFails then (db, .ret none)
  else if o.pointerUpdateFails then
    ({ db with orders := db.orders ++ [newOrderRow o db.paymentOrder sanitizedUserId od] },
      .ret none)
  else
    match bookingAttempt env o od with
    | _ =>
      ({ db with
          orders := db.orders ++ [newOrderRow o db.paymentOrder sanitizedUserId od]
          paymentOrder := { db.paymentOrder with
            metadata := { db.paymentOrder.metadata with appOrderId := some o.freshOrderId } }
          orderItems := db.orderItems ++ itemsRowsToAdd o db.orderItems od o.freshOrderId
          statusHistories :=
            db.statusHistories ++ historyRowsToAdd o db.statusHistories od o.freshOrderId },
        .ret (some (newOrderRow o db.paymentOrder sanitizedUserId od)))

/-- The body of `createOrderFromPaymentOrderData` inside the outer try:
validation, item sanitization, the idempotency check on the metadata
pointer (load-and-return when it names an existing Order), then the
creation path. -/
def matBody (env : Env) (o : MatOracle) (db : DB) (orderData : OrderData)
    (_accessToken : Option String) : DB × MatOutcome :=
  if !(truthyS orderData.userId && truthyS orderData.orderType) then (db, .ret none)
  else
    match sanitizeUUID orderData.userId with
    | none => (db, .ret none)
    | some sanitizedUserId =>
      if truthyS db.paymentOrder.metadata.appOrderId then
        match db.orders.find? fun r =>
            r.id == db.paymentOrder.metadata.appOrderId.getD "" with
        | some existingOrder => (db, .ret (some existingOrder))
        | none => matCreate env o db (sanitizeOrderItems orderData) sanitizedUserId
      else matCreate env o db (sanitizeOrderItems orderData) sanitizedUserId

/-- `createOrderFromPaymentOrderData(paymentOrder, orderData, accessToken)`:
the outer try/catch turns any escaped exception into a `null` result. -/
def createOrderFromPaymentOrderData (env : Env) (o : MatOracle) (db : DB)
    (orderData : OrderData) (accessToken : Option String) : DB × Option OrderRow :=
  match matBody env o db orderData accessToken with
  | (db2, .ret r) => (db2, r)
  | (db2, .exn) => (db2, none)

/-! ## Verify Handler — verifyPaymentSignatureHandler
(payments.handler.ts lines 231-466) -/

/-- `VerifyPaymentBody` of payments.types.ts.  Fields the handler checks for
runtime absence are `Option`-valued even when the TS type declares them
required. -/
structure VerifyBody where
  razorpay_order_id : String
  razorpay_payment_id : String
  razorpay_signature : String
  userId : Option String := none
  orderType : Option String := none
  templeId : Option String := none
  addressId : Option String := none
  status : Option String := none
  scheduledDate : Option String := none
  scheduledTimestamp : Option String := none
  fulfillmentType : Option String := none
  subtotal : Option String := none
  discountAmount : Option String := none
  convenienceFee : Option String := none
  taxAmount : Option String := none
  totalAmount : Option String := none
  currency : Option String := none
  contactName : Option String := none
  contactPhone : Option String := none
  contactEmail : Option String := none
  shippingAddress : Option String := none
  deliveryType : Option String := none
  orderItems : Option (List OrderItemInput) := none
  rudrakshaBookingData : Option RudrakshaBookingData := none
deriving DecidableEq, Repr

/-- The responses the verify handler can produce.  The 500 of line 382
("Failed to update payment order": the row vanishing between the update and
the re-read) has no counterpart because the embedded store cannot lose the
row. -/
inductive VerifyResult where
  | sigError500
  | invalidSignature400
  | notFound404
  | conflict409
  | userIdMissing400
  | orderTypeMissing400
  | invalidUserIdFormat400
  | alreadyProcessed200 (appOrderId : String)
  | verified200 (appOrderId : Option String)
deriving DecidableEq, Repr

/-- The `orderDataToStore` snapshot of lines 330-352, staged into metadata.
`userId` is the sanitized id (required), temple/address ids are the
sanitized values with a `|| null` guard, `status` defaults via `??`. -/
def orderDataToStore (body : VerifyBody) (sanitizedUserId : String)
    (sanitizedTempleId sanitizedAddressId : Option String) : OrderData :=
  { userId := some sanitizedUserId
    orderType := body.orderType
    templeId := jsOrNull sanitizedTempleId
    addressId := jsOrNull sanitizedAddressId
    status := some (body.status.getD "pending")
    scheduledDate := body.scheduledDate
    scheduledTimestamp := body.scheduledTimestamp
    fulfillmentType := body.fulfillmentType
    subtotal := body.subtotal
    discountAmount := body.discountAmount
    convenienceFee := body.convenienceFee
    taxAmount := body.taxAmount
    totalAmount := body.totalAmount
    currency := body.currency
    contactName := body.contactName
    contactPhone := body.contactPhone
    contactEmail := body.contactEmail
    shippingAddress := body.shippingAddress
    deliveryType := body.deliveryType
    orderItems := body.orderItems
    rudrakshaBookingData := body.rudrakshaBookingData }

/-- The tail of the verify handler after the staging update (lines 378-416):
re-read the row, and when no order pointer is set yet and the staged data is
complete, call the Materializer synchronously so the response can carry the
order id. -/
def verifyAfterUpdate (env : Env) (o : MatOracle) (db1 : DB)
    (authHeader : Option String) : DB × VerifyResult :=
  match db1.paymentOrder.metadata.orderData with
  | some odata =>
    if !(truthyS db1.paymentOrder.metadata.appOrderId)
        && truthyS odata.userId && truthyS odata.orderType then
      match createOrderFromPaymentOrderData env o db1 odata authHeader with
      | (db2, some created) =>
        (db2, .verified200 (if created.id != "" then some created.id
          else db1.paymentOrder.metadata.appOrderId))
      | (db2, none) => (db2, .verified200 db1.paymentOrder.metadata.appOrderId)
    else (db1, .verified200 db1.paymentOrder.metadata.appOrderId)
  | none => (db1, .verified200 db1.paymentOrder.metadata.appOrderId)

/-- `verifyPaymentSignatureHandler`: signature check (a throw inside it is a
500), PaymentOrder lookup, the conflict-versus-retry rule, body validation,
the idempotent short-circuit, the staging update (spreading the previous
metadata, clobbering `orderData`), then the synchronous materialization. -/
def verifyPaymentSignatureHandler (env : Env) (o : MatOracle) (body : VerifyBody)
    (authHeader : Option String) (db : DB) : DB × VerifyResult :=
  match verifyPaymentSignature env body.razorpay_order_id body.razorpay_payment_id
      body.razorpay_signature with
  | .error _ => (db, .sigError500)
  | .ok isValid =>
    if !isValid then (db, .invalidSignature400)
    else if body.razorpay_order_id != db.paymentOrder.razorpayOrderId then (db, .notFound404)
    else
      let po := db.paymentOrder
      if truthyS po.razorpayPaymentId
          && po.razorpayPaymentId.getD "" != body.razorpay_payment_id
          && (po.status == .paid || po.status == .captured) then
        (db, .conflict409)
      else if !(truthyS body.userId) then (db, .userIdMissing400)
      else if !(truthyS body.orderType) then (db, .orderTypeMissing400)
      else
        match sanitizeUUID body.userId with
        | none => (db, .invalidUserIdFormat400)
        | some suid =>
          let ods := orderDataToStore body suid (sanitizeUUID body.templeId)
            (sanitizeUUID body.addressId)
          let isAlreadyProcessed := po.status == .paid || po.status == .captured
          if isAlreadyProcessed && truthyS po.metadata.appOrderId then
            (db, .alreadyProcessed200 (po.metadata.appOrderId.getD ""))
          else
            verifyAfterUpdate env o
              { db with paymentOrder := { po with
                  razorpayPaymentId := some body.razorpay_payment_id
                  razorpaySignature := some body.razorpay_signature
                  status := if isAlreadyProcessed then po.status else .paid
                  metadata := { po.metadata with
                    orderData := some ods
                    razorpayPaymentId := some body.razorpay_payment_id
                    verifiedAt := some o.now } } }
              authHeader

/-! ## Webhook Handler — razorpayWebhookHandler and event handlers
(payments.handler.ts lines 1045-1343) -/

/-- The slice of a Razorpay payment entity the event handlers read. -/
structure RazorpayPaymentEntity where
  id : String
  amount : Nat
  order_id : String
  captured_at : Option Nat := none
  error_description : Option String := none
deriving DecidableEq, Repr

/-- The slice of a Razorpay order entity the event handlers read. -/
structure RazorpayOrderEntity where
  id : String
deriving DecidableEq, Repr

/-- `payload.payload` of the webhook body. -/
structure WebhookPayloadBody where
  payment : Option RazorpayPaymentEntity := none
  order : Option RazorpayOrderEntity := none
deriving DecidableEq, Repr

/-- An inbound webhook request: signature header, the exact raw body bytes
(as received, not re-serialized), the event name and the parsed payload
(`none` models a missing `payload.payload`). -/
structure WebhookRequest where
  signatureHeader : Option String := none
  rawBody : String := ""
  event : String := ""
  payload : Option WebhookPayloadBody := none
deriving DecidableEq, Repr

/-- Webhook responses.  The 500s (handler throw / outer failure) have no
counterpart: the embedded event handlers' only throw sites are store
failures, which the embedded store does not produce. -/
inductive WebhookResult where
  | signatureInvalid400
  | payloadInvalid400
  | unsupported200 (event : String)
  | processed200 (event : String)
deriving DecidableEq, Repr

/-- `handlePaymentAuthorized` (lines 1046-1077): status-only update; the
`failureReason: undefined` entry is dropped by the store layer, so the field
is untouched. -/
def handlePaymentAuthorized (o : MatOracle) (e : RazorpayPaymentEntity) (db : DB) : DB :=
  if e.order_id != db.paymentOrder.razorpayOrderId then db
  else
    { db with paymentOrder := { db.paymentOrder with
        razorpayPaymentId := some e.id
        status := .authorized
        amount := some e.amount
        metadata := { db.paymentOrder.metadata with
          paymentEntityEcho := some e.id
          authorizedAt := some o.now } } }

/-- `handlePaymentCaptured` (lines 1079-1135): update the row to captured,
then — reading the pre-update metadata — skip when the order pointer is
already set, else materialize from the staged snapshot with no caller
access token. -/
def handlePaymentCaptured (env : Env) (o : MatOracle) (e : RazorpayPaymentEntity)
    (db : DB) : DB :=
  if e.order_id != db.paymentOrder.razorpayOrderId then db
  else
    let metadata := db.paymentOrder.metadata
    let db1 : DB :=
      { db with paymentOrder := { db.paymentOrder with
          razorpayPaymentId := some e.id
          status := .captured
          amount := some e.amount
          capturedAt := e.captured_at
          metadata := { metadata with
            paymentEntityEcho := some e.id
            capturedAt := some o.now } } }
    if truthyS metadata.appOrderId then db1
    else
      match metadata.orderData with
      | some od =>
        if truthyS od.userId && truthyS od.orderType then
          (createOrderFromPaymentOrderData env o db1 od none).1
        else db1
      | none => db1

/-- `handlePaymentFailed` (lines 1137-1168): record the failure reason
(`error_description || 'Payment failed'`); never materializes. -/
def handlePaymentFailed (o : MatOracle) (e : RazorpayPaymentEntity) (db : DB) : DB :=
  if e.order_id != db.paymentOrder.razorpayOrderId then db
  else
    { db with paymentOrder := { db.paymentOrder with
        razorpayPaymentId := some e.id
        status := .failed
        amount := some e.amount
        failureReason := some ((jsOr e.error_description (some "Payment failed")).getD "")
        metadata := { db.paymentOrder.metadata with
          paymentEntityEcho := some e.id
          failedAt := some o.now } } }

/-- `handleOrderPaid` (lines 1170-1224): mark paid unless already captured,
then the same materialize-if-unclaimed logic as the captured handler. -/
def handleOrderPaid (env : Env) (o : MatOracle) (e : RazorpayOrderEntity) (db : DB) : DB :=
  if e.id != db.paymentOrder.razorpayOrderId then db
  else
    let metadata := db.paymentOrder.metadata
    let db1 : DB :=
      if db.paymentOrder.status != .captured then
        { db with paymentOrder := { db.paymentOrder with
            status := .paid
            metadata := { metadata with
              orderEntityEcho := some e.id
              paidAt := some o.now } } }
      else db
    if truthyS metadata.appOrderId then db1
    else
      match metadata.orderData with
      | some od =>
        if truthyS od.userId && truthyS od.orderType then
          (createOrderFromPaymentOrderData env o db1 od none).1
        else db1
      | none => db1

/-- The event dispatch of lines 1272-1326: payload-shape check, then the
switch on the event name; refund events only log; unknown events answer 200
with the unsupported marker. -/
def webhookProcessEvent (env : Env) (o : MatOracle) (req : WebhookRequest)
    (db : DB) : DB × WebhookResult :=
  match req.payload with
  | none => (db, .payloadInvalid400)
  | some payload =>
    if req.event == "" then (db, .payloadInvalid400)
    else if req.event == "payment.authorized" then
      match payload.payment with
      | some e => (handlePaymentAuthorized o e db, .processed200 req.event)
      | none => (db, .processed200 req.event)
    else if req.event == "payment.captured" then
      match payload.payment with
      | some e => (handlePaymentCaptured env o e db, .processed200 req.event)
      | none => (db, .processed200 req.event)
    else if req.event == "payment.failed" then
      match payload.payment with
      | some e => (handlePaymentFailed o e db, .processed200 req.event)
      | none => (db, .processed200 req.event)
    else if req.event == "order.paid" then
      match payload.order with
      | some e => (handleOrderPaid env o e db, .processed200 req.event)
      | none => (db, .processed200 req.event)
    else if req.event == "refund.created" || req.event == "refund.processed" then
      (db, .processed200 req.event)
    else (db, .unsupported200 req.event)

/-- `razorpayWebhookHandler`: with a configured webhook secret, a missing or
invalid signature header is a 400; with no secret the request is processed
without any verification (the source's accept-by-default policy). -/
def razorpayWebhookHandler (env : Env) (o : MatOracle) (req : WebhookRequest)
    (db : DB) : DB × WebhookResult :=
  if truthyS env.webhookSecret then
    if !(truthyS req.signatureHeader) then (db, .signatureInvalid400)
    else if verifyWebhookSignature env req.rawBody (req.signatureHeader.getD "") then
      webhookProcessEvent env o req db
    else (db, .signatureInvalid400)
  else webhookProcessEvent env o req db

/-! ## Capture Handler — capturePaymentHandler
(payments.handler.ts lines 953-1043) -/

/-- `CapturePaymentBody`; `amount` is carried already converted to minor
units (`toMinorUnits`), with `none` for an absent field. -/
structure CapturePaymentBody where
  paymentId : String
  amount : Option Nat := none
  currency : Option String := none
deriving DecidableEq, Repr

/-- Oracle for the gateway `payments.capture` call. -/
structure CaptureOracle where
  captureFails : Bool := false
  capturedAt : Option Nat := none
  responseAmount : Nat := 0
deriving DecidableEq, Repr

/-- Responses of the capture handler. -/
inductive CaptureResult where
  | notFound404
  | alreadyCaptured200
  | amountRequired400
  | captured200
  | captureFailed502
deriving DecidableEq, Repr

/-- `capturePaymentHandler`: lookup by gateway payment id, idempotent
short-circuit on an already-captured row, `body.amount ? toMinorUnits(...) :
row.amount` with a falsy-amount 400, the gateway capture call, then the
status/amount update (metadata untouched; the `failureReason: undefined`
entry is dropped by the store layer). -/
def capturePaymentHandler (o : CaptureOracle) (body : CapturePaymentBody)
    (db : DB) : DB × CaptureResult :=
  let po := db.paymentOrder
  if po.razorpayPaymentId != some body.paymentId then (db, .notFound404)
  else if po.status == .captured then (db, .alreadyCaptured200)
  else
    let captureAmount : Option Nat :=
      match body.amount with
      | some a => if a != 0 then some a else po.amount
      | none => po.amount
    if captureAmount == none || captureAmount == some 0 then (db, .amountRequired400)
    else if o.captureFails then (db, .captureFailed502)
    else
      ({ db with paymentOrder := { po with
          status := .captured
          capturedAt := o.capturedAt
          amount := some o.responseAmount } }, .captured200)

/-! ## Sequential operational model for the per-PaymentOrder invariants -/

/-- One inbound request against the shared store. -/
inductive ServiceOp where
  | verifyOp (o : MatOracle) (body : VerifyBody) (authHeader : Option String)
  | webhookOp (o : MatOracle) (req : WebhookRequest)
  | captureOp (o : CaptureOracle) (body : CapturePaymentBody)

/-- The store after handling one request. -/
def stepOp (env : Env) (db : DB) : ServiceOp → DB
  | .verifyOp o body auth => (verifyPaymentSignatureHandler env o body auth db).1
  | .webhookOp o req => (razorpayWebhookHandler env o req db).1
  | .captureOp o body => (capturePaymentHandler o body db).1

/-- The store after a sequence of requests. -/
def runOps (env : Env) (db : DB) : List ServiceOp → DB
  | [] => db
  | op :: rest => runOps env (stepOp env db op) rest

/-- Well-formedness of an operation's oracle: the id the store assigns to a
created Order is a real (non-empty) key. -/
def opWF : ServiceOp → Prop
  | .verifyOp o _ _ => o.freshOrderId ≠ ""
  | .webhookOp o _ => o.freshOrderId ≠ ""
  | .captureOp _ _ => True

/-- No pointer-update failure in an operation's oracle: the single-row
metadata write of line 635 succeeds.  When it can fail (caught at line 643)
a created Order is orphaned and the at-most-one-Order property is lost. -/
def opNoPtrFail : ServiceOp → Prop
  | .verifyOp o _ _ => o.pointerUpdateFails = false
  | .webhookOp o _ => o.pointerUpdateFails = false
  | .captureOp _ _ => True

/-- The weak reconciliation invariant: whenever the metadata order pointer
is set, it is a non-empty key and an Order row with that id exists.  It
holds through every operation, including caught pointer-update failures
(which leave the pointer unset). -/
def PointerInv (db : DB) : Prop :=
  ∀ x, db.paymentOrder.metadata.appOrderId = some x →
    x ≠ "" ∧ ∃ r ∈ db.orders, r.id = x

/-- The strong reconciliation invariant tying the metadata order pointer to
the Orders table: no pointer means no Order has been materialized yet; a
set pointer is a non-empty key naming the unique materialized Order row.
It is preserved only when every pointer update succeeds (`opNoPtrFail`): a
caught pointer-update failure orphans a created Order with the pointer
still unset. -/
def PointerOrderInv (db : DB) : Prop :=
  match db.paymentOrder.metadata.appOrderId with
  | none => db.orders = []
  | some x => x ≠ "" ∧ db.orders.length = 1 ∧ ∃ r ∈ db.orders, r.id = x

/-! ## Concrete fixtures used by the witness theorems -/

/-- A concrete environment: a trivially computable stand-in for the abstract
HMAC, a configured key secret, no webhook secret, a configured appcontrol
URL. -/
def envEx : Env :=
  { hmac := fun k m => k ++ ":" ++ m
    keySecret := some "sec"
    webhookSecret := none
    appcontrolUrl := some "http://appcontrol" }

/-- A concrete valid v4 identifier. -/
def uuidEx : String := "550e8400-e29b-41d4-a716-446655440000"

/-- A fresh PaymentOrder row as created at checkout initiation. -/
def poEx : PaymentOrderRow := { razorpayOrderId := "order_1" }

/-- The store holding just `poEx`. -/
def dbEx : DB := { paymentOrder := poEx }

/-- A staged product snapshot. -/
def odEx : OrderData := { userId := some uuidEx, orderType := some "product" }

/-- A benign oracle assigning the id `ord-1` to a created Order. -/
def oEx : MatOracle := { freshOrderId := "ord-1" }

/-- A well-formed verify payload for `poEx` under `envEx`. -/
def bodyEx : VerifyBody :=
  { razorpay_order_id := "order_1"
    razorpay_payment_id := "pay_1"
    razorpay_signature := "sec:order_1|pay_1"
    userId := some uuidEx
    orderType := some "product" }

/-- A store whose PaymentOrder has already been materialized: the pointer is
set and names the one existing Order row. -/
def dbClaimedEx : DB :=
  { paymentOrder :=
      { razorpayOrderId := "order_1"
        status := .paid
        metadata := { appOrderId := some "ord-1" } }
    orders := [{ id := "ord-1", userId := uuidEx, orderType := "product",
                 status := "pending", paymentStatus := "paid", paymentMethod := "razorpay" }] }

/-- Staged booking data for an event order: date carries a time suffix, slot
is a plain string. -/
def bdEx : RudrakshaBookingData :=
  { userId := uuidEx
    preferredDate := some "2025-01-01T10:00"
    preferredTimeSlot := some "morning" }

/-- A staged event snapshot carrying `bdEx`. -/
def odEventEx : OrderData :=
  { userId := some uuidEx, orderType := some "event", rudrakshaBookingData := some bdEx }

/-- An existing booking in the per-date-map representation that collides
with `bdEx`. -/
def dupBookingEx : AvailBooking :=
  { preferredDate := .null
    preferredTimeSlot := .obj [("2025-01-01", .str "morning")] }

/-- An oracle whose availability collaborator reports `dupBookingEx`. -/
def oDupEx : MatOracle :=
  { freshOrderId := "ord-2", avail := .resp true (some [dupBookingEx]) }

/-- A PaymentOrder whose first payment attempt failed. -/
def dbFailedEx : DB :=
  { paymentOrder :=
      { razorpayOrderId := "order_1"
        razorpayPaymentId := some "pay_0"
        status := .failed
        failureReason := some "insufficient funds" } }

/-- A PaymentOrder already paid under a different payment id. -/
def dbPaidEx : DB :=
  { paymentOrder :=
      { razorpayOrderId := "order_1"
        razorpayPaymentId := some "pay_0"
        status := .paid } }

/-- A previously staged snapshot (first verify call's payload). -/
def odA : OrderData :=
  { userId := some uuidEx
    orderType := some "product"
    status := some "pending"
    contactName := some "first" }

/-- A paid PaymentOrder holding the staged snapshot `odA`, with no order
pointer yet (its first materialization did not complete). -/
def dbStagedEx : DB :=
  { paymentOrder :=
      { razorpayOrderId := "order_1"
        razorpayPaymentId := some "pay_1"
        status := .paid
        metadata := { orderData := some odA } } }

/-- A retry of the verify call carrying a different payload. -/
def bodyRetryEx : VerifyBody := { bodyEx with contactName := some "second" }

/-- A captured-payment gateway entity for `poEx`. -/
def wEntityEx : RazorpayPaymentEntity :=
  { id := "pay_1", amount := 50000, order_id := "order_1" }

/-- A `payment.captured` webhook delivery for `poEx`. -/
def reqCapEx : WebhookRequest :=
  { event := "payment.captured", payload := some { payment := some wEntityEx } }

/-- An oracle whose `Order.create` succeeds but whose subsequent pointer
update throws (caught at line 643): the created Order is orphaned. -/
def oPtrFailEx : MatOracle := { freshOrderId := "ord-1", pointerUpdateFails := true }

/-- A second benign oracle assigning the id `ord-2`. -/
def oEx2 : MatOracle := { freshOrderId := "ord-2" }

/-- A verify call whose materialization orphans its Order, followed by a
retried verify call: the sequence that creates two Order rows. -/
def opsOrphanEx : List ServiceOp :=
  [ServiceOp.verifyOp oPtrFailEx bodyEx none, ServiceOp.verifyOp oEx2 bodyEx none]

/-! ## Theorems -/

/-- A pure-numeric string can never pass the v4 shape test: position 8 of a
36-character candidate has to be a dash, and a dash is not a digit. -/
theorem isValidUUID_of_numeric (s : String) (h : isNumericString s = true) :
    isValidUUID (some s) = false := by
  have hd : ∀ c ∈ s.toList, c.isDigit = true := by
    have := (Bool.and_eq_true _ _).mp h
    exact fun c hc => (List.all_eq_true.mp this.2) c hc
  simp only [isValidUUID]
  by_cases hs : s = ""
  · simp [hs]
  · have hbe : (s == "") = false := by simpa using hs
    rw [hbe]
    simp only [Bool.false_eq_true, if_false]
    by_contra hcontra
    have htest : uuidRegexTest s = true := by
      cases htt : uuidRegexTest s with
      | false => exact absurd htt hcontra
      | true => rfl
    unfold uuidRegexTest at htest
    have hsplit := (Bool.and_eq_true _ _).mp htest
    have hlen : s.toList.length = 36 := by simpa using hsplit.1
    have h8m : (8 : Nat) ∈ List.range 36 := by decide
    have h8 := List.all_eq_true.mp hsplit.2 8 h8m
    have hlt : 8 < s.toList.length := by omega
    rw [List.getD_eq_getElem s.toList ' ' hlt] at h8
    have hdash : s.toList[8] = '-' := by simpa [uuidCharOk] using h8
    have hmem : s.toList[8] ∈ s.toList := List.getElem_mem hlt
    have := hd _ hmem
    rw [hdash] at this
    exact absurd this (by decide)

/-- Claim C6: `sanitizeUUID` never throws (it is a total function by
construction); it returns `null` for non-string (`none`) or empty input and
for any string whose trimmed form fails the version-4 shape test — in
particular for pure-numeric strings — and for a valid v4 identifier it
returns the trimmed, lower-cased value. -/
theorem sanitizeUUID_spec (v : String) :
    sanitizeUUID none = none ∧
    sanitizeUUID (some "") = none ∧
    (isNumericString (jsTrim v) = true → sanitizeUUID (some v) = none) ∧
    (isValidUUID (some (jsTrim v)) = false → sanitizeUUID (some v) = none) ∧
    (isValidUUID (some (jsTrim v)) = true →
      sanitizeUUID (some v) = some (lowerString (jsTrim v))) := by
  have hinvalid : isValidUUID (some (jsTrim v)) = false → sanitizeUUID (some v) = none := by
    intro hfalse
    simp only [sanitizeUUID]
    by_cases hv : (v == "") = true
    · rw [if_pos hv]
    · rw [if_neg hv]
      simp [hfalse]
  refine ⟨rfl, rfl, ?_, hinvalid, ?_⟩
  · intro hnum
    exact hinvalid (isValidUUID_of_numeric _ hnum)
  · intro htrue
    simp only [sanitizeUUID]
    have hv : (v == "") = false := by
      by_contra hcontra
      have hveq : v = "" := by
        cases hvv : (v == "") with
        | false => exact absurd hvv hcontra
        | true => exact eq_of_beq hvv
      rw [hveq] at htrue
      simp [jsTrim, isValidUUID] at htrue
    rw [hv]
    simp only [Bool.false_eq_true, if_false]
    simp [htrue]

/-- Witness for C6: the three spec examples, evaluated concretely. -/
theorem sanitizeUUID_spec_witness :
    sanitizeUUID (some "1") = none ∧
    sanitizeUUID (some "not-a-uuid") = none ∧
    sanitizeUUID (some "550E8400-E29B-41D4-A716-446655440000") = some uuidEx := by
  refine ⟨?_, ?_, ?_⟩
  · exact (sanitizeUUID_spec "1").2.2.1 (by decide)
  · exact (sanitizeUUID_spec "not-a-uuid").2.2.2.1 (by decide)
  · exact ((sanitizeUUID_spec "550E8400-E29B-41D4-A716-446655440000").2.2.2.2
      (by decide)).trans (by decide)

/-- Claim C5: with a configured (truthy) key secret,
`verifyPaymentSignature` returns exactly the comparison of the supplied
signature against the hex HMAC of `orderId|paymentId` under the secret — so
any signature other than that digest yields `false` — and it throws
precisely when the secret is missing. -/
theorem verifyPaymentSignature_spec (env : Env) (oid pid sig : String) :
    (∀ ks, env.keySecret = some ks → ks ≠ "" →
      verifyPaymentSignature env oid pid sig =
        .ok (env.hmac ks (oid ++ "|" ++ pid) == sig)) ∧
    (∀ ks, env.keySecret = some ks → ks ≠ "" → sig ≠ env.hmac ks (oid ++ "|" ++ pid) →
      verifyPaymentSignature env oid pid sig = .ok false) ∧
    (truthyS env.keySecret = false → verifyPaymentSignature env oid pid sig = .error ()) := by
  have hmain : ∀ ks, env.keySecret = some ks → ks ≠ "" →
      verifyPaymentSignature env oid pid sig =
        .ok (env.hmac ks (oid ++ "|" ++ pid) == sig) := by
    intro ks hks hne
    unfold verifyPaymentSignature
    rw [hks]
    simp [truthyS, hne]
  refine ⟨hmain, ?_, ?_⟩
  · intro ks hks hne hsig
    rw [hmain ks hks hne]
    have : (env.hmac ks (oid ++ "|" ++ pid) == sig) = false :=
      beq_eq_false_iff_ne.mpr (Ne.symm hsig)
    rw [this]
  · intro hfalsy
    unfold verifyPaymentSignature
    rw [hfalsy]
    simp

/-- Witness for C5: a correct digest verifies, a wrong one does not. -/
theorem verifyPaymentSignature_spec_witness :
    verifyPaymentSignature envEx "o1" "p1" "sec:o1|p1" = .ok true ∧
    verifyPaymentSignature envEx "o1" "p1" "bad" = .ok false := by
  constructor
  · exact ((verifyPaymentSignature_spec envEx "o1" "p1" "sec:o1|p1").1 "sec" rfl
      (by decide)).trans (congrArg Except.ok (by decide))
  · exact (verifyPaymentSignature_spec envEx "o1" "p1" "bad").2.1 "sec" rfl (by decide) (by decide)

/-- The event-dispatch part of the webhook handler can never answer with the
signature-failure response. -/
theorem webhookProcessEvent_ne_signatureInvalid (env : Env) (o : MatOracle)
    (req : WebhookRequest) (db : DB) :
    (webhookProcessEvent env o req db).2 ≠ .signatureInvalid400 := by
  intro hcontra
  unfold webhookProcessEvent at hcontra
  repeat' split at hcontra
  all_goals cases hcontra

/-- Claim C9: with no configured webhook secret, `verifyWebhookSignature`
accepts every payload/signature pair, and the webhook handler's behaviour is
entirely independent of the signature header — it processes the event
without verification and never answers with a signature failure. -/
theorem webhook_no_secret_accepts (env : Env) (h : truthyS env.webhookSecret = false) :
    (∀ p s, verifyWebhookSignature env p s = true) ∧
    (∀ (o : MatOracle) (req : WebhookRequest) (db : DB) (s₁ s₂ : Option String),
      razorpayWebhookHandler env o { req with signatureHeader := s₁ } db =
        razorpayWebhookHandler env o { req with signatureHeader := s₂ } db) ∧
    (∀ (o : MatOracle) (req : WebhookRequest) (db : DB),
      (razorpayWebhookHandler env o req db).2 ≠ .signatureInvalid400) := by
  refine ⟨?_, ?_, ?_⟩
  · intro p s
    unfold verifyWebhookSignature
    rw [h]
    simp
  · intro o req db s₁ s₂
    unfold razorpayWebhookHandler
    rw [h]
    simp only [Bool.false_eq_true, if_false]
    rfl
  · intro o req db
    unfold razorpayWebhookHandler
    rw [h]
    simp only [Bool.false_eq_true, if_false]
    exact webhookProcessEvent_ne_signatureInvalid env o req db

/-- Witness for C9: under `envEx` (no webhook secret) an arbitrary signature
is accepted and an unsigned request is processed. -/
theorem webhook_no_secret_accepts_witness :
    verifyWebhookSignature envEx "raw-bytes" "anything" = true ∧
    (razorpayWebhookHandler envEx oEx { event := "refund.created", payload := some {} } dbEx).2 ≠
      .signatureInvalid400 := by
  constructor
  · exact (webhook_no_secret_accepts envEx (by decide)).1 "raw-bytes" "anything"
  · exact (webhook_no_secret_accepts envEx (by decide)).2.2 oEx
      { event := "refund.created", payload := some {} } dbEx

/-- Every path through the materializer body finishes in a `.ret` outcome:
the exceptional `.exn` outcome is never produced, because each oracle-driven
failure is consumed by the catch that encloses it in the source. -/
theorem matBody_ret (env : Env) (o : MatOracle) (db : DB) (od : OrderData)
    (tok : Option String) :
    ∃ db2 r, matBody env o db od tok = (db2, MatOutcome.ret r) := by
  unfold matBody matCreate
  repeat' split
  all_goals exact ⟨_, _, rfl⟩

/-- Claim C10: the materializer is total over its error modes — for every
input and every oracle outcome (validation failure, duplicate-check failure,
`Order.create` failure, item/history/booking failures) the body never lets
an exception escape: it always finishes in a `.ret` outcome, so the function
returns an Order or `null` to its caller. -/
theorem materializer_total (env : Env) (o : MatOracle) (db : DB) (od : OrderData)
    (tok : Option String) :
    ∃ db2 r, matBody env o db od tok = (db2, .ret r) ∧
      createOrderFromPaymentOrderData env o db od tok = (db2, r) := by
  obtain ⟨db2, r, hr⟩ := matBody_ret env o db od tok
  refine ⟨db2, r, hr, ?_⟩
  unfold createOrderFromPaymentOrderData
  rw [hr]

/-- `sanitizeOrderItems` rewrites only the `orderItems` list; every scalar
field of the snapshot is untouched. -/
theorem sanitizeOrderItems_scalar (od : OrderData) :
    (sanitizeOrderItems od).userId = od.userId ∧
    (sanitizeOrderItems od).orderType = od.orderType ∧
    (sanitizeOrderItems od).rudrakshaBookingData = od.rudrakshaBookingData := by
  unfold sanitizeOrderItems
  split <;> exact ⟨rfl, rfl, rfl⟩

/-- The wrapper and the body act on the store identically. -/
theorem createOrder_fst (env : Env) (o : MatOracle) (db : DB) (od : OrderData)
    (tok : Option String) :
    (createOrderFromPaymentOrderData env o db od tok).1 = (matBody env o db od tok).1 := by
  obtain ⟨db2, r, hr⟩ := matBody_ret env o db od tok
  unfold createOrderFromPaymentOrderData
  rw [hr]

/-- Frame of the materializer body on the PaymentOrder row: whatever path it
takes, it never touches the row's status, payment id, signature, or the
staged snapshot — its only PaymentOrder write is the `appOrderId` pointer. -/
theorem matBody_po_frame (env : Env) (o : MatOracle) (db : DB) (od : OrderData)
    (tok : Option String) :
    (matBody env o db od tok).1.paymentOrder.status = db.paymentOrder.status ∧
    (matBody env o db od tok).1.paymentOrder.razorpayPaymentId =
      db.paymentOrder.razorpayPaymentId ∧
    (matBody env o db od tok).1.paymentOrder.razorpaySignature =
      db.paymentOrder.razorpaySignature ∧
    (matBody env o db od tok).1.paymentOrder.metadata.orderData =
      db.paymentOrder.metadata.orderData := by
  unfold matBody matCreate
  repeat' split
  all_goals exact ⟨rfl, rfl, rfl, rfl⟩

/-- `matBody_po_frame` carried through the outer catch. -/
theorem mat_po_frame (env : Env) (o : MatOracle) (db : DB) (od : OrderData)
    (tok : Option String) :
    (createOrderFromPaymentOrderData env o db od tok).1.paymentOrder.status =
      db.paymentOrder.status ∧
    (createOrderFromPaymentOrderData env o db od tok).1.paymentOrder.razorpayPaymentId =
      db.paymentOrder.razorpayPaymentId ∧
    (createOrderFromPaymentOrderData env o db od tok).1.paymentOrder.razorpaySignature =
      db.paymentOrder.razorpaySignature ∧
    (createOrderFromPaymentOrderData env o db od tok).1.paymentOrder.metadata.orderData =
      db.paymentOrder.metadata.orderData := by
  rw [createOrder_fst]
  exact matBody_po_frame env o db od tok

/-- `find?` by id succeeds whenever some row carries the id, and the row it
returns carries that id. -/
theorem find_order_by_id (orders : List OrderRow) (x : String)
    (hex : ∃ r ∈ orders, r.id = x) :
    ∃ r2, orders.find? (fun rr => rr.id == x) = some r2 ∧ r2.id = x := by
  obtain ⟨r, hr, hrid⟩ := hex
  have hsome : (orders.find? fun rr => rr.id == x).isSome := by
    rw [List.find?_isSome]
    exact ⟨r, hr, by simp [hrid]⟩
  obtain ⟨r2, hr2⟩ := Option.isSome_iff_exists.mp hsome
  refine ⟨r2, hr2, ?_⟩
  have hp := List.find?_some hr2
  simpa using hp

/-- When the pointer names an existing Order, the materializer body leaves
the store untouched on every path (idempotency check or validation exit). -/
theorem matBody_ptr_state (env : Env) (o : MatOracle) (db : DB) (od : OrderData)
    (tok : Option String) (x : String) (hx : x ≠ "")
    (hp : db.paymentOrder.metadata.appOrderId = some x)
    (hex : ∃ r ∈ db.orders, r.id = x) :
    (matBody env o db od tok).1 = db := by
  obtain ⟨r2, hfind, _⟩ := find_order_by_id db.orders x hex
  have htp : truthyS (some x) = true := by simp [truthyS, hx]
  unfold matBody
  split
  · rfl
  · split
    · rfl
    · simp [hp, htp, hfind]

/-- When the pointer names an existing Order and validation passes, the
materializer body returns that Order and leaves the store untouched. -/
theorem matBody_ptr_hit (env : Env) (o : MatOracle) (db : DB) (od : OrderData)
    (tok : Option String) (x : String) (suid : String)
    (hu : truthyS od.userId = true) (ht : truthyS od.orderType = true)
    (hsan : sanitizeUUID od.userId = some suid)
    (hx : x ≠ "") (hp : db.paymentOrder.metadata.appOrderId = some x)
    (hex : ∃ r ∈ db.orders, r.id = x) :
    ∃ r2, r2.id = x ∧ matBody env o db od tok = (db, .ret (some r2)) := by
  obtain ⟨r2, hfind, hr2⟩ := find_order_by_id db.orders x hex
  have htp : truthyS (some x) = true := by simp [truthyS, hx]
  refine ⟨r2, hr2, ?_⟩
  simp [matBody, hu, ht, hsan, hp, htp, hfind]

/-- Starting from an unclaimed PaymentOrder with no materialized Order and
an oracle whose pointer update succeeds, the body reestablishes the strong
reconciliation invariant: either nothing happened, or exactly one Order was
created and the pointer now names it. -/
theorem matBody_inv_none (env : Env) (o : MatOracle) (db : DB) (od : OrderData)
    (tok : Option String) (hf : o.freshOrderId ≠ "")
    (hpw : o.pointerUpdateFails = false)
    (hp : db.paymentOrder.metadata.appOrderId = none) (hord : db.orders = []) :
    PointerOrderInv (matBody env o db od tok).1 := by
  have hbase : PointerOrderInv db := by
    unfold PointerOrderInv
    rw [hp]
    exact hord
  unfold matBody matCreate
  split
  · exact hbase
  · split
    · exact hbase
    · rw [hp]
      simp only [truthyS, Bool.false_eq_true, if_false]
      split
      · exact hbase
      · split
        · exact hbase
        · rw [hpw]
          simp only [Bool.false_eq_true, if_false]
          unfold PointerOrderInv
          simp [hord, hf, newOrderRow]

/-- Starting from an unclaimed PaymentOrder, the body reestablishes the
weak reconciliation invariant for any oracle outcome: a caught
pointer-update failure leaves the pointer unset (so the invariant is
vacuous), and a successful creation points at the created row. -/
theorem matBody_ptrInv_none (env : Env) (o : MatOracle) (db : DB) (od : OrderData)
    (tok : Option String) (hf : o.freshOrderId ≠ "")
    (hp : db.paymentOrder.metadata.appOrderId = none) :
    PointerInv (matBody env o db od tok).1 := by
  have hbase : PointerInv db := fun x hx => Option.noConfusion (hp ▸ hx)
  unfold matBody matCreate
  split
  · exact hbase
  · split
    · exact hbase
    · rw [hp]
      simp only [truthyS, Bool.false_eq_true, if_false]
      split
      · exact hbase
      · split
        · exact hbase
        · split
          · -- pointer update failed: Order row appended, pointer still unset
            intro x hx
            exact Option.noConfusion (hp ▸ (hx : db.paymentOrder.metadata.appOrderId = some x))
          · -- creation succeeded: pointer names the appended row
            intro x hx
            have hx2 : some o.freshOrderId = some x := hx
            cases Option.some.inj hx2
            exact ⟨hf, newOrderRow o db.paymentOrder _ (sanitizeOrderItems od),
              List.mem_append_right _ (List.mem_singleton.mpr rfl), rfl⟩

/-- Any materializer call with a well-formed oracle preserves the weak
invariant and never changes a set pointer; when its pointer update
succeeds, it also preserves the strong invariant. -/
theorem mat_inv2 (env : Env) (o : MatOracle) (db : DB) (od : OrderData)
    (tok : Option String) (hf : o.freshOrderId ≠ "") (h : PointerInv db) :
    PointerInv (createOrderFromPaymentOrderData env o db od tok).1 ∧
    (∀ x, db.paymentOrder.metadata.appOrderId = some x →
      (createOrderFromPaymentOrderData env o db od tok).1.paymentOrder.metadata.appOrderId =
        some x) ∧
    (o.pointerUpdateFails = false → PointerOrderInv db →
      PointerOrderInv (createOrderFromPaymentOrderData env o db od tok).1) := by
  rw [createOrder_fst]
  cases hp : db.paymentOrder.metadata.appOrderId with
  | none =>
    refine ⟨matBody_ptrInv_none env o db od tok hf hp, ?_, ?_⟩
    · intro x hx
      exact Option.noConfusion hx
    · intro hpw hOI
      have hord : db.orders = [] := by
        unfold PointerOrderInv at hOI
        rw [hp] at hOI
        exact hOI
      exact matBody_inv_none env o db od tok hf hpw hp hord
  | some x =>
    obtain ⟨hx, r, hrmem, hrid⟩ := h x hp
    have hstate := matBody_ptr_state env o db od tok x hx hp ⟨r, hrmem, hrid⟩
    rw [hstate]
    refine ⟨h, ?_, fun _ hOI => hOI⟩
    intro y hy
    exact hp.trans hy

/-- Claim C1: once the PaymentOrder's metadata pointer names an existing
Order, any further materializer invocation (with the staged data passing its
up-front validation, as every call site guarantees) returns that same order
id, leaves the whole store untouched — no Order, OrderItem or
OrderStatusHistory row is created — and performs no write to the
PaymentOrder. -/
theorem materializer_idempotent (env : Env) (o : MatOracle) (db : DB) (od : OrderData)
    (tok : Option String) (x suid : String)
    (hu : truthyS od.userId = true) (ht : truthyS od.orderType = true)
    (hsan : sanitizeUUID od.userId = some suid)
    (hx : x ≠ "") (hp : db.paymentOrder.metadata.appOrderId = some x)
    (hex : ∃ r ∈ db.orders, r.id = x) :
    ∃ r2, r2.id = x ∧ createOrderFromPaymentOrderData env o db od tok = (db, some r2) := by
  obtain ⟨r2, hr2, hbody⟩ := matBody_ptr_hit env o db od tok x suid hu ht hsan hx hp hex
  refine ⟨r2, hr2, ?_⟩
  unfold createOrderFromPaymentOrderData
  rw [hbody]

/-- Witness for C1: re-running the materializer against the already-claimed
store returns the existing order id and changes nothing. -/
theorem materializer_idempotent_witness :
    ∃ r2, r2.id = "ord-1" ∧
      createOrderFromPaymentOrderData envEx oEx dbClaimedEx odEx none = (dbClaimedEx, some r2) :=
  materializer_idempotent envEx oEx dbClaimedEx odEx none "ord-1" uuidEx
    (by decide) (by decide) (by decide) (by decide) rfl (by decide)

/-- The matcher accepts the per-date-map representation. -/
theorem duplicate_matcher_map_rep :
    isDuplicateOfBooking "2025-01-01" "morning"
      { preferredDate := .null
        preferredTimeSlot := .obj [("2025-01-01", .str "morning")] } = .ok true := rfl

/-- The matcher accepts the parallel date/slot arrays representation
(dates normalized from timestamped strings, slots matched by index). -/
theorem duplicate_matcher_arrays_rep :
    isDuplicateOfBooking "2025-01-01" "morning"
      { preferredDate := .arr [.str "2025-01-02", .str "2025-01-01T08:00"]
        preferredTimeSlot := .arr [.str "evening", .str "morning"] } = .ok true := rfl

/-- The matcher accepts the single scalar date/slot representation. -/
theorem duplicate_matcher_scalar_rep :
    isDuplicateOfBooking "2025-01-01" "morning"
      { preferredDate := .str "2025-01-01T23:00"
        preferredTimeSlot := .str "morning" } = .ok true := rfl

/-- Claim C3: an event-order materialization whose staged booking data
carries a preferred date and slot aborts with `null` and creates no Order
whenever the availability collaborator reports a booking matching the
normalized (date, slot) — under any of the three representations the
matcher `isDuplicateOfBooking` tolerates. -/
theorem duplicate_event_booking_guard (env : Env) (o : MatOracle) (db : DB)
    (od : OrderData) (tok : Option String) (bd : RudrakshaBookingData)
    (bs : List AvailBooking) (suid : String)
    (hu : truthyS od.userId = true)
    (hsan : sanitizeUUID od.userId = some suid)
    (het : od.orderType = some "event")
    (hbd : od.rudrakshaBookingData = some bd)
    (hptr : truthyS db.paymentOrder.metadata.appOrderId = false)
    (hpd : truthyS bd.preferredDate = true)
    (hts : truthyS bd.preferredTimeSlot = true)
    (hurl : truthyS env.appcontrolUrl = true)
    (havail : o.avail = .resp true (some bs))
    (hnorm : stripT (bd.preferredDate.getD "") ≠ "")
    (hdup : findDuplicateBooking (stripT (bd.preferredDate.getD ""))
        (bd.preferredTimeSlot.getD "") bs = .ok true) :
    createOrderFromPaymentOrderData env o db od tok = (db, none) := by
  have ht : truthyS od.orderType = true := by rw [het]; rfl
  obtain ⟨hsu, hso, hsb⟩ := sanitizeOrderItems_scalar od
  have hguard : matGuardNull env o (sanitizeOrderItems od) = true := by
    unfold matGuardNull duplicateCheckBody
    rw [hso, het, hsb, hbd]
    simp [hpd, hts, hurl, havail, hnorm, hdup]
  have hbody : matBody env o db od tok = (db, .ret none) := by
    unfold matBody matCreate
    simp [hu, ht, hsan, hptr, hguard]
  unfold createOrderFromPaymentOrderData
  rw [hbody]

/-- Witness for C3: with `dupBookingEx` reported by the collaborator, the
event materialization for `bdEx` is aborted and the store is unchanged. -/
theorem duplicate_event_booking_guard_witness :
    createOrderFromPaymentOrderData envEx oDupEx dbEx odEventEx none = (dbEx, none) :=
  duplicate_event_booking_guard envEx oDupEx dbEx odEventEx none bdEx [dupBookingEx] uuidEx
    (by decide) (by decide) rfl rfl (by decide) (by decide) (by decide) (by decide) rfl
    (by decide) rfl

/-- The duplicate guard reads only the availability outcome, never the
downstream failure flags. -/
theorem matGuardNull_flags (env : Env) (o : MatOracle) (od : OrderData) (b1 b2 b3 : Bool) :
    matGuardNull env
      { o with itemsCreateFails := b1, historyCreateFails := b2, bookingCreateFails := b3 } od =
    matGuardNull env o od := rfl

/-- The creation path written out: when validation passes, the pointer is
unclaimed, the guard does not fire and `Order.create` succeeds, the body
appends exactly one Order row, claims the pointer with its id, appends the
guarded item/history rows and returns the new Order. -/
theorem matBody_creates (env : Env) (o : MatOracle) (db : DB) (od : OrderData)
    (tok : Option String) (suid : String)
    (hu : truthyS od.userId = true) (ht : truthyS od.orderType = true)
    (hsan : sanitizeUUID od.userId = some suid)
    (hptr : truthyS db.paymentOrder.metadata.appOrderId = false)
    (hguard : matGuardNull env o (sanitizeOrderItems od) = false)
    (hcreate : o.orderCreateFails = false)
    (hpw : o.pointerUpdateFails = false) :
    matBody env o db od tok =
      ({ db with
          orders := db.orders ++ [newOrderRow o db.paymentOrder suid (sanitizeOrderItems od)]
          paymentOrder := { db.paymentOrder with
            metadata := { db.paymentOrder.metadata with appOrderId := some o.freshOrderId } }
          orderItems := db.orderItems ++
            itemsRowsToAdd o db.orderItems (sanitizeOrderItems od) o.freshOrderId
          statusHistories := db.statusHistories ++
            historyRowsToAdd o db.statusHistories (sanitizeOrderItems od) o.freshOrderId },
        .ret (some (newOrderRow o db.paymentOrder suid (sanitizeOrderItems od)))) := by
  unfold matBody matCreate
  simp [hu, ht, hsan, hptr, hguard, hcreate, hpw]

/-- Claim C8: once the Order row is created and the pointer written (the
create and the pointer update both succeed), any combination of failures in
the OrderItem batch, the status-history write or the external booking
creation neither removes or modifies the created Order nor changes the
materializer's result — it still returns the created Order. -/
theorem downstream_failures_nonfatal (env : Env) (o : MatOracle) (db : DB)
    (od : OrderData) (tok : Option String) (suid : String) (b1 b2 b3 : Bool)
    (hu : truthyS od.userId = true) (ht : truthyS od.orderType = true)
    (hsan : sanitizeUUID od.userId = some suid)
    (hptr : truthyS db.paymentOrder.metadata.appOrderId = false)
    (hguard : matGuardNull env o (sanitizeOrderItems od) = false)
    (hcreate : o.orderCreateFails = false)
    (hpw : o.pointerUpdateFails = false) :
    (createOrderFromPaymentOrderData env
        { o with itemsCreateFails := b1, historyCreateFails := b2, bookingCreateFails := b3 }
        db od tok).2 = some (newOrderRow o db.paymentOrder suid (sanitizeOrderItems od)) ∧
    newOrderRow o db.paymentOrder suid (sanitizeOrderItems od) ∈
      (createOrderFromPaymentOrderData env
        { o with itemsCreateFails := b1, historyCreateFails := b2, bookingCreateFails := b3 }
        db od tok).1.orders := by
  have hguard2 : matGuardNull env
      { o with itemsCreateFails := b1, historyCreateFails := b2, bookingCreateFails := b3 }
      (sanitizeOrderItems od) = false :=
    (matGuardNull_flags env o (sanitizeOrderItems od) b1 b2 b3).trans hguard
  have hbody := matBody_creates env
    { o with itemsCreateFails := b1, historyCreateFails := b2, bookingCreateFails := b3 }
    db od tok suid hu ht hsan hptr hguard2 hcreate hpw
  unfold createOrderFromPaymentOrderData
  rw [hbody]
  exact ⟨rfl, List.mem_append_right _ (List.mem_singleton.mpr rfl)⟩

/-- Witness for C8: with all three downstream failure flags raised, the
materializer still returns and keeps the created Order. -/
theorem downstream_failures_nonfatal_witness :
    (createOrderFromPaymentOrderData envEx
        { oEx with itemsCreateFails := true, historyCreateFails := true, bookingCreateFails := true }
        dbEx odEx none).2 =
      some (newOrderRow oEx dbEx.paymentOrder uuidEx (sanitizeOrderItems odEx)) ∧
    newOrderRow oEx dbEx.paymentOrder uuidEx (sanitizeOrderItems odEx) ∈
      (createOrderFromPaymentOrderData envEx
        { oEx with itemsCreateFails := true, historyCreateFails := true, bookingCreateFails := true }
        dbEx odEx none).1.orders :=
  downstream_failures_nonfatal envEx oEx dbEx odEx none uuidEx true true true
    (by decide) (by decide) (by decide) (by decide) (by decide) rfl rfl

/-- The post-staging tail of the verify handler always answers with the
200-verified response. -/
theorem verifyAfterUpdate_result (env : Env) (o : MatOracle) (db1 : DB)
    (auth : Option String) :
    ∃ a, (verifyAfterUpdate env o db1 auth).2 = .verified200 a := by
  unfold verifyAfterUpdate
  repeat' split
  all_goals exact ⟨_, rfl⟩

/-- In particular the post-staging tail can never answer 409. -/
theorem verifyAfterUpdate_ne_conflict (env : Env) (o : MatOracle) (db1 : DB)
    (auth : Option String) :
    (verifyAfterUpdate env o db1 auth).2 ≠ .conflict409 := by
  obtain ⟨a, ha⟩ := verifyAfterUpdate_result env o db1 auth
  intro h
  rw [ha] at h
  cases h

/-- The post-staging tail never touches the PaymentOrder's status, payment
id or staged snapshot (its only write is the materializer's pointer). -/
theorem verifyAfterUpdate_po_frame (env : Env) (o : MatOracle) (db1 : DB)
    (auth : Option String) :
    (verifyAfterUpdate env o db1 auth).1.paymentOrder.status = db1.paymentOrder.status ∧
    (verifyAfterUpdate env o db1 auth).1.paymentOrder.razorpayPaymentId =
      db1.paymentOrder.razorpayPaymentId ∧
    (verifyAfterUpdate env o db1 auth).1.paymentOrder.metadata.orderData =
      db1.paymentOrder.metadata.orderData := by
  unfold verifyAfterUpdate
  split
  next odata heq =>
    split
    · split
      next db2 created heq2 =>
        have hf := mat_po_frame env o db1 odata auth
        rw [heq2] at hf
        exact ⟨hf.1, hf.2.1, hf.2.2.2⟩
      next db2 heq2 =>
        have hf := mat_po_frame env o db1 odata auth
        rw [heq2] at hf
        exact ⟨hf.1, hf.2.1, hf.2.2.2⟩
    · exact ⟨rfl, rfl, rfl⟩
  next heq => exact ⟨rfl, rfl, rfl⟩

/-- Claim C4: with a valid signature, a found PaymentOrder and a stored
payment id that is non-null and differs from the incoming one, the verify
handler answers 409 with no write exactly when the stored status is already
`paid` or `captured`; for any other status it never answers 409, and for a
`failed` status (with a well-formed body) the differing payment id is
accepted: the row transitions to `paid` carrying the new payment id. -/
theorem verify_conflict_vs_retry (env : Env) (o : MatOracle) (body : VerifyBody)
    (auth : Option String) (db : DB) (pid : String)
    (hsig : verifyPaymentSignature env body.razorpay_order_id body.razorpay_payment_id
        body.razorpay_signature = .ok true)
    (hfound : body.razorpay_order_id = db.paymentOrder.razorpayOrderId)
    (hpid : db.paymentOrder.razorpayPaymentId = some pid)
    (hpne : pid ≠ "") (hdiff : pid ≠ body.razorpay_payment_id) :
    ((db.paymentOrder.status = .paid ∨ db.paymentOrder.status = .captured) →
      verifyPaymentSignatureHandler env o body auth db = (db, .conflict409)) ∧
    (db.paymentOrder.status ≠ .paid → db.paymentOrder.status ≠ .captured →
      (verifyPaymentSignatureHandler env o body auth db).2 ≠ .conflict409) ∧
    (db.paymentOrder.status = .failed → truthyS body.userId = true →
      truthyS body.orderType = true →
      ∀ suid, sanitizeUUID body.userId = some suid →
      (verifyPaymentSignatureHandler env o body auth db).1.paymentOrder.status = .paid ∧
      (verifyPaymentSignatureHandler env o body auth db).1.paymentOrder.razorpayPaymentId =
        some body.razorpay_payment_id) := by
  have hsig2 : verifyPaymentSignature env db.paymentOrder.razorpayOrderId
      body.razorpay_payment_id body.razorpay_signature = .ok true := by
    rw [← hfound]; exact hsig
  refine ⟨?_, ?_, ?_⟩
  · intro hstat
    rcases hstat with h | h <;>
      simp [verifyPaymentSignatureHandler, hsig2, hfound, hpid, truthyS, hpne, hdiff, h]
  · intro hne1 hne2 hcontra
    cases hst : db.paymentOrder.status
    case paid => exact absurd hst hne1
    case captured => exact absurd hst hne2
    all_goals
      have hno : (db.paymentOrder.status == PaymentStatus.paid ||
          db.paymentOrder.status == PaymentStatus.captured) = false := by rw [hst]; decide
    all_goals
      simp [verifyPaymentSignatureHandler, hsig2, hfound, hno] at hcontra
    all_goals
      repeat' split at hcontra
    all_goals first
      | cases hcontra
      | exact verifyAfterUpdate_ne_conflict env o _ auth hcontra
  · intro hfail hu ht suid hsan
    have hno : (db.paymentOrder.status == PaymentStatus.paid ||
        db.paymentOrder.status == PaymentStatus.captured) = false := by rw [hfail]; decide
    have hred : verifyPaymentSignatureHandler env o body auth db =
        verifyAfterUpdate env o
          { db with paymentOrder := { db.paymentOrder with
              razorpayPaymentId := some body.razorpay_payment_id
              razorpaySignature := some body.razorpay_signature
              status := .paid
              metadata := { db.paymentOrder.metadata with
                orderData := some (orderDataToStore body suid (sanitizeUUID body.templeId)
                  (sanitizeUUID body.addressId))
                razorpayPaymentId := some body.razorpay_payment_id
                verifiedAt := some o.now } } } auth := by
      simp [verifyPaymentSignatureHandler, hsig2, hfound, hno, hu, ht, hsan]
    constructor
    · rw [hred]
      exact (verifyAfterUpdate_po_frame env o _ auth).1
    · rw [hred]
      exact (verifyAfterUpdate_po_frame env o _ auth).2.1

/-- Witness for C4: the paid row rejects the differing payment id with a
409 and no write; the failed row accepts it and transitions to paid. -/
theorem verify_conflict_vs_retry_witness :
    verifyPaymentSignatureHandler envEx oEx bodyEx none dbPaidEx = (dbPaidEx, .conflict409) ∧
    (verifyPaymentSignatureHandler envEx oEx bodyEx none dbFailedEx).1.paymentOrder.status =
      .paid ∧
    (verifyPaymentSignatureHandler envEx oEx bodyEx none
        dbFailedEx).1.paymentOrder.razorpayPaymentId = some "pay_1" := by
  refine ⟨?_, ?_, ?_⟩
  · exact (verify_conflict_vs_retry envEx oEx bodyEx none dbPaidEx "pay_0" rfl rfl rfl
      (by decide) (by decide)).1 (Or.inl rfl)
  · exact ((verify_conflict_vs_retry envEx oEx bodyEx none dbFailedEx "pay_0" rfl rfl rfl
      (by decide) (by decide)).2.2 rfl (by decide) (by decide) uuidEx (by decide)).1
  · exact ((verify_conflict_vs_retry envEx oEx bodyEx none dbFailedEx "pay_0" rfl rfl rfl
      (by decide) (by decide)).2.2 rfl (by decide) (by decide) uuidEx (by decide)).2

/-- Counterexample to C7 as stated: a PaymentOrder whose metadata already
holds a staged snapshot, hit by a retried verify call that reaches the
staging step, does NOT keep the previously staged `orderData` — the update
of lines 366-376 spreads the old metadata and then overwrites the
`orderData` key with the retry's payload. -/
theorem verify_restaging_clobbers_counterexample :
    dbStagedEx.paymentOrder.metadata.orderData = some odA ∧
    (verifyPaymentSignatureHandler envEx oEx bodyRetryEx none
        dbStagedEx).1.paymentOrder.metadata.orderData ≠ some odA := by
  constructor
  · rfl
  · decide

/-- Claim C7 amended: the verify handler stages on every call that reaches
the staging step, last write wins — after the update the staged `orderData`
is exactly the snapshot built from the current call's payload (and the
subsequent synchronous materialization never touches it). -/
theorem verify_restaging_last_write_wins (env : Env) (o : MatOracle) (body : VerifyBody)
    (auth : Option String) (db : DB) (suid : String)
    (hsig : verifyPaymentSignature env body.razorpay_order_id body.razorpay_payment_id
        body.razorpay_signature = .ok true)
    (hfound : body.razorpay_order_id = db.paymentOrder.razorpayOrderId)
    (hsame : db.paymentOrder.razorpayPaymentId = some body.razorpay_payment_id)
    (hu : truthyS body.userId = true) (ht : truthyS body.orderType = true)
    (hsan : sanitizeUUID body.userId = some suid)
    (hptr : truthyS db.paymentOrder.metadata.appOrderId = false) :
    (verifyPaymentSignatureHandler env o body auth db).1.paymentOrder.metadata.orderData =
      some (orderDataToStore body suid (sanitizeUUID body.templeId)
        (sanitizeUUID body.addressId)) := by
  have hsig2 : verifyPaymentSignature env db.paymentOrder.razorpayOrderId
      body.razorpay_payment_id body.razorpay_signature = .ok true := by
    rw [← hfound]; exact hsig
  have hred : verifyPaymentSignatureHandler env o body auth db =
      verifyAfterUpdate env o
        { db with paymentOrder := { db.paymentOrder with
            razorpayPaymentId := some body.razorpay_payment_id
            razorpaySignature := some body.razorpay_signature
            status := if db.paymentOrder.status == PaymentStatus.paid ||
                db.paymentOrder.status == PaymentStatus.captured
              then db.paymentOrder.status else .paid
            metadata := { db.paymentOrder.metadata with
              orderData := some (orderDataToStore body suid (sanitizeUUID body.templeId)
                (sanitizeUUID body.addressId))
              razorpayPaymentId := some body.razorpay_payment_id
              verifiedAt := some o.now } } } auth := by
    simp [verifyPaymentSignatureHandler, hsig2, hfound, hsame, hu, ht, hsan, hptr]
  rw [hred]
  exact (verifyAfterUpdate_po_frame env o _ auth).2.2

/-- Witness for the amended C7: the retried call's payload wins. -/
theorem verify_restaging_last_write_wins_witness :
    (verifyPaymentSignatureHandler envEx oEx bodyRetryEx none
        dbStagedEx).1.paymentOrder.metadata.orderData =
      some (orderDataToStore bodyRetryEx uuidEx (sanitizeUUID bodyRetryEx.templeId)
        (sanitizeUUID bodyRetryEx.addressId)) :=
  verify_restaging_last_write_wins envEx oEx bodyRetryEx none dbStagedEx uuidEx rfl rfl rfl
    (by decide) (by decide) (by decide) (by decide)

/-- The verify tail preserves the weak invariant and a set pointer, and —
when the oracle's pointer update succeeds — the strong invariant. -/
theorem verifyAfterUpdate_inv (env : Env) (o : MatOracle) (db1 : DB)
    (auth : Option String) (hf : o.freshOrderId ≠ "") (h : PointerInv db1) :
    PointerInv (verifyAfterUpdate env o db1 auth).1 ∧
    (∀ x, db1.paymentOrder.metadata.appOrderId = some x →
      (verifyAfterUpdate env o db1 auth).1.paymentOrder.metadata.appOrderId = some x) ∧
    (o.pointerUpdateFails = false → PointerOrderInv db1 →
      PointerOrderInv (verifyAfterUpdate env o db1 auth).1) := by
  unfold verifyAfterUpdate
  split
  next odata heq =>
    split
    · split
      next db2 created heq2 =>
        have hm := mat_inv2 env o db1 odata auth hf h
        rw [heq2] at hm
        exact hm
      next db2 heq2 =>
        have hm := mat_inv2 env o db1 odata auth hf h
        rw [heq2] at hm
        exact hm
    · exact ⟨h, fun x hx => hx, fun _ hOI => hOI⟩
  next heq => exact ⟨h, fun x hx => hx, fun _ hOI => hOI⟩

/-- The verify handler preserves the weak invariant and a set pointer (its
staging update spreads the previous metadata), and the strong invariant when
the pointer update cannot fail. -/
theorem verify_inv (env : Env) (o : MatOracle) (body : VerifyBody) (auth : Option String)
    (db : DB) (hf : o.freshOrderId ≠ "") (h : PointerInv db) :
    PointerInv (verifyPaymentSignatureHandler env o body auth db).1 ∧
    (∀ x, db.paymentOrder.metadata.appOrderId = some x →
      (verifyPaymentSignatureHandler env o body auth db).1.paymentOrder.metadata.appOrderId =
        some x) ∧
    (o.pointerUpdateFails = false → PointerOrderInv db →
      PointerOrderInv (verifyPaymentSignatureHandler env o body auth db).1) := by
  simp only [verifyPaymentSignatureHandler]
  repeat' split
  all_goals first
    | exact ⟨h, fun x hx => hx, fun _ hOI => hOI⟩
    | exact verifyAfterUpdate_inv env o _ auth hf h

/-- The authorized-event handler preserves both invariants and the
pointer. -/
theorem handlePaymentAuthorized_inv (o : MatOracle) (e : RazorpayPaymentEntity) (db : DB)
    (h : PointerInv db) :
    PointerInv (handlePaymentAuthorized o e db) ∧
    (∀ x, db.paymentOrder.metadata.appOrderId = some x →
      (handlePaymentAuthorized o e db).paymentOrder.metadata.appOrderId = some x) ∧
    (o.pointerUpdateFails = false → PointerOrderInv db →
      PointerOrderInv (handlePaymentAuthorized o e db)) := by
  unfold handlePaymentAuthorized
  split
  · exact ⟨h, fun x hx => hx, fun _ hOI => hOI⟩
  · exact ⟨h, fun x hx => hx, fun _ hOI => hOI⟩

/-- The failed-event handler preserves both invariants and the pointer. -/
theorem handlePaymentFailed_inv (o : MatOracle) (e : RazorpayPaymentEntity) (db : DB)
    (h : PointerInv db) :
    PointerInv (handlePaymentFailed o e db) ∧
    (∀ x, db.paymentOrder.metadata.appOrderId = some x →
      (handlePaymentFailed o e db).paymentOrder.metadata.appOrderId = some x) ∧
    (o.pointerUpdateFails = false → PointerOrderInv db →
      PointerOrderInv (handlePaymentFailed o e db)) := by
  unfold handlePaymentFailed
  split
  · exact ⟨h, fun x hx => hx, fun _ hOI => hOI⟩
  · exact ⟨h, fun x hx => hx, fun _ hOI => hOI⟩

/-- The captured-event handler preserves the weak invariant and the
pointer, and the strong invariant when the pointer update succeeds. -/
theorem handlePaymentCaptured_inv (env : Env) (o : MatOracle) (e : RazorpayPaymentEntity)
    (db : DB) (hf : o.freshOrderId ≠ "") (h : PointerInv db) :
    PointerInv (handlePaymentCaptured env o e db) ∧
    (∀ x, db.paymentOrder.metadata.appOrderId = some x →
      (handlePaymentCaptured env o e db).paymentOrder.metadata.appOrderId = some x) ∧
    (o.pointerUpdateFails = false → PointerOrderInv db →
      PointerOrderInv (handlePaymentCaptured env o e db)) := by
  simp only [handlePaymentCaptured]
  repeat' split
  all_goals first
    | exact ⟨h, fun x hx => hx, fun _ hOI => hOI⟩
    | exact mat_inv2 env o _ _ none hf h

/-- The order-paid handler preserves the weak invariant and the pointer,
and the strong invariant when the pointer update succeeds. -/
theorem handleOrderPaid_inv (env : Env) (o : MatOracle) (e : RazorpayOrderEntity)
    (db : DB) (hf : o.freshOrderId ≠ "") (h : PointerInv db) :
    PointerInv (handleOrderPaid env o e db) ∧
    (∀ x, db.paymentOrder.metadata.appOrderId = some x →
      (handleOrderPaid env o e db).paymentOrder.metadata.appOrderId = some x) ∧
    (o.pointerUpdateFails = false → PointerOrderInv db →
      PointerOrderInv (handleOrderPaid env o e db)) := by
  simp only [handleOrderPaid]
  repeat' split
  all_goals first
    | exact ⟨h, fun x hx => hx, fun _ hOI => hOI⟩
    | exact mat_inv2 env o _ _ none hf h

/-- The event dispatch preserves the weak invariant and the pointer, and
the strong invariant when the pointer update succeeds. -/
theorem webhookProcessEvent_inv (env : Env) (o : MatOracle) (req : WebhookRequest)
    (db : DB) (hf : o.freshOrderId ≠ "") (h : PointerInv db) :
    PointerInv (webhookProcessEvent env o req db).1 ∧
    (∀ x, db.paymentOrder.metadata.appOrderId = some x →
      (webhookProcessEvent env o req db).1.paymentOrder.metadata.appOrderId = some x) ∧
    (o.pointerUpdateFails = false → PointerOrderInv db →
      PointerOrderInv (webhookProcessEvent env o req db).1) := by
  unfold webhookProcessEvent
  repeat' split
  all_goals first
    | exact ⟨h, fun x hx => hx, fun _ hOI => hOI⟩
    | exact handlePaymentAuthorized_inv o _ db h
    | exact handlePaymentCaptured_inv env o _ db hf h
    | exact handlePaymentFailed_inv o _ db h
    | exact handleOrderPaid_inv env o _ db hf h

/-- The webhook handler preserves the weak invariant and the pointer, and
the strong invariant when the pointer update succeeds. -/
theorem webhook_inv (env : Env) (o : MatOracle) (req : WebhookRequest) (db : DB)
    (hf : o.freshOrderId ≠ "") (h : PointerInv db) :
    PointerInv (razorpayWebhookHandler env o req db).1 ∧
    (∀ x, db.paymentOrder.metadata.appOrderId = some x →
      (razorpayWebhookHandler env o req db).1.paymentOrder.metadata.appOrderId = some x) ∧
    (o.pointerUpdateFails = false → PointerOrderInv db →
      PointerOrderInv (razorpayWebhookHandler env o req db).1) := by
  unfold razorpayWebhookHandler
  repeat' split
  all_goals first
    | exact ⟨h, fun x hx => hx, fun _ hOI => hOI⟩
    | exact webhookProcessEvent_inv env o req db hf h

/-- The capture handler preserves both invariants and the pointer (it never
touches metadata or the Orders table). -/
theorem capture_inv (o : CaptureOracle) (body : CapturePaymentBody) (db : DB)
    (h : PointerInv db) :
    PointerInv (capturePaymentHandler o body db).1 ∧
    (∀ x, db.paymentOrder.metadata.appOrderId = some x →
      (capturePaymentHandler o body db).1.paymentOrder.metadata.appOrderId = some x) ∧
    (PointerOrderInv db → PointerOrderInv (capturePaymentHandler o body db).1) := by
  simp only [capturePaymentHandler]
  repeat' split
  all_goals exact ⟨h, fun x hx => hx, fun hOI => hOI⟩

/-- One inbound request preserves the weak invariant and the pointer, and
the strong invariant when its pointer update cannot fail. -/
theorem stepOp_inv (env : Env) (db : DB) (op : ServiceOp) (hwf : opWF op)
    (h : PointerInv db) :
    PointerInv (stepOp env db op) ∧
    (∀ x, db.paymentOrder.metadata.appOrderId = some x →
      (stepOp env db op).paymentOrder.metadata.appOrderId = some x) ∧
    (opNoPtrFail op → PointerOrderInv db → PointerOrderInv (stepOp env db op)) := by
  cases op with
  | verifyOp o body auth => exact verify_inv env o body auth db hwf h
  | webhookOp o req => exact webhook_inv env o req db hwf h
  | captureOp o body =>
    have hc := capture_inv o body db h
    exact ⟨hc.1, hc.2.1, fun _ => hc.2.2⟩

/-- A whole sequence of requests preserves the weak invariant and the
pointer; when no operation's pointer update fails, it also preserves the
strong invariant. -/
theorem runOps_inv (env : Env) :
    ∀ (ops : List ServiceOp), (∀ op ∈ ops, opWF op) →
    ∀ db : DB, PointerInv db →
      PointerInv (runOps env db ops) ∧
      (∀ x, db.paymentOrder.metadata.appOrderId = some x →
        (runOps env db ops).paymentOrder.metadata.appOrderId = some x) ∧
      ((∀ op ∈ ops, opNoPtrFail op) → PointerOrderInv db →
        PointerOrderInv (runOps env db ops)) := by
  intro ops
  induction ops with
  | nil => exact fun _ db h => ⟨h, fun x hx => hx, fun _ hOI => hOI⟩
  | cons op rest ih =>
    intro hwf db h
    have h1 := stepOp_inv env db op (hwf op (List.mem_cons_self op rest)) h
    have h2 := ih (fun op2 hm => hwf op2 (List.mem_cons_of_mem _ hm)) (stepOp env db op) h1.1
    refine ⟨h2.1, fun x hx => h2.2.1 x (h1.2.1 x hx), ?_⟩
    intro hnp hOI
    exact h2.2.2 (fun op2 hm => hnp op2 (List.mem_cons_of_mem _ hm))
      (h1.2.2 (hnp op (List.mem_cons_self op rest)) hOI)

/-- Counterexample to C2 as stated: a verify call whose materialization
creates its Order but whose pointer write then throws (caught at line 643)
leaves an orphan Order with the pointer unset; a retried verify call then
passes the idempotency check and creates a second Order row — two Order
rows for one PaymentOrder, purely sequentially. -/
theorem pointer_write_failure_two_orders_counterexample :
    (runOps envEx dbEx opsOrphanEx).orders.length = 2 ∧
    ¬ (runOps envEx dbEx opsOrphanEx).orders.length ≤ 1 := by
  constructor
  · decide
  · decide

/-- Claim C2 amended: over any sequence of verify, webhook and capture
requests (sequentially, with store-assigned ids non-empty), once the
metadata order pointer has been set to some order id it is never
overwritten with a different one — even across caught pointer-write
failures; and provided the single-row pointer update after each
`Order.create` succeeds, the Orders table never holds more than one row for
the PaymentOrder. -/
theorem pointer_stable_and_at_most_once (env : Env) (ops : List ServiceOp) (db : DB)
    (hwf : ∀ op ∈ ops, opWF op) (h : PointerInv db) :
    PointerInv (runOps env db ops) ∧
    (∀ x, db.paymentOrder.metadata.appOrderId = some x →
      (runOps env db ops).paymentOrder.metadata.appOrderId = some x) ∧
    ((∀ op ∈ ops, opNoPtrFail op) → PointerOrderInv db →
      (runOps env db ops).orders.length ≤ 1) := by
  have hr := runOps_inv env ops hwf db h
  refine ⟨hr.1, hr.2.1, ?_⟩
  intro hnp hOI
  have hOI2 := hr.2.2 hnp hOI
  unfold PointerOrderInv at hOI2
  cases hp : (runOps env db ops).paymentOrder.metadata.appOrderId with
  | none =>
    rw [hp] at hOI2
    simp [hOI2]
  | some x =>
    rw [hp] at hOI2
    obtain ⟨_, hlen, _⟩ := hOI2
    omega

/-- Witness for the amended C2: a verify call followed by a
duplicate-delivery webhook capture, with all pointer writes succeeding,
leaves at most one Order and a stable pointer. -/
theorem pointer_stable_and_at_most_once_witness :
    PointerInv
      (runOps envEx dbEx [ServiceOp.verifyOp oEx bodyEx none, ServiceOp.webhookOp oEx reqCapEx]) ∧
    (∀ x, dbEx.paymentOrder.metadata.appOrderId = some x →
      (runOps envEx dbEx
        [ServiceOp.verifyOp oEx bodyEx none,
         ServiceOp.webhookOp oEx reqCapEx]).paymentOrder.metadata.appOrderId = some x) ∧
    ((∀ op ∈ [ServiceOp.verifyOp oEx bodyEx none, ServiceOp.webhookOp oEx reqCapEx],
        opNoPtrFail op) → PointerOrderInv dbEx →
      (runOps envEx dbEx
        [ServiceOp.verifyOp oEx bodyEx none,
         ServiceOp.webhookOp oEx reqCapEx]).orders.length ≤ 1) :=
  pointer_stable_and_at_most_once envEx [ServiceOp.verifyOp oEx bodyEx none,
      ServiceOp.webhookOp oEx reqCapEx] dbEx
    (by
      intro op hop
      rcases List.mem_cons.mp hop with hop1 | hop2
      · rw [hop1]
        exact (by decide : oEx.freshOrderId ≠ "")
      · rcases List.mem_singleton.mp hop2 with rfl
        exact (by decide : oEx.freshOrderId ≠ ""))
    (by intro x hx; exact Option.noConfusion hx)

end OmgPay
